import Mathlib

/-!
Shallow embedding of the rva-figure-drawing caching and aggregation pipeline
(`scripts/scrapers/cache.py`, `scripts/scrapers/base.py`,
`scripts/scrapers/claude_scraper.py`, `scripts/scrapers/__init__.py`).

Modelling conventions:
* Wall-clock time is a `Nat` counting minutes; the Python code stores ISO
  timestamps and compares `datetime` values, whose TTL arithmetic we mirror at
  one-minute granularity (TTLs are whole hours, the spec's boundary cases are
  stated in minutes).
* The cache dictionary is an association list keyed by source id, with
  dict-like replace/delete semantics.
* Python exceptions are `Except PyErr`; a Python function that cannot raise is
  a total Lean function.
* Floating-point `costValue` payloads are carried as `Option Rat`; no
  arithmetic is ever performed on them by the modelled operations.
-/

deriving instance DecidableEq for Except

/-- Python exception classes that the modelled code can raise or catch. -/
inductive PyErr where
  | typeError
  | attributeError
  | osError
  | unicodeDecodeError
  | httpError
  | runtimeError
deriving Repr, DecidableEq

/-- The dictionary produced by `Event.to_dict` in `base.py` (and stored in the
cache / merged by the aggregation pipeline).  Keys are always present; an
absent optional value is Python `None`, modelled as `none`. -/
structure EventDict where
  source : String
  sourceUrl : String
  title : String
  date : String
  startTime : Option String := none
  endTime : Option String := none
  location : String := ""
  address : String := ""
  cost : String := ""
  costValue : Option Rat := none
  url : String := ""
  description : String := ""
  tags : List String := []
  status : String := "confirmed"
  registrationStatus : String := "unknown"
  instructor : Option String := none
deriving Repr, DecidableEq

/-- The `Event` dataclass of `base.py` (normalized event record). -/
structure Event where
  source : String
  source_url : String
  title : String
  date : String
  start_time : Option String := none
  end_time : Option String := none
  location : String := ""
  address : String := ""
  cost : String := ""
  cost_value : Option Rat := none
  url : String := ""
  description : String := ""
  tags : List String := []
  status : String := "confirmed"
  registration_status : String := "unknown"
  instructor : Option String := none
deriving Repr, DecidableEq

/-- `Event.to_dict` of `base.py`: field-for-field conversion to the
JSON-serializable dict. -/
def Event.to_dict (e : Event) : EventDict :=
  { source := e.source
    sourceUrl := e.source_url
    title := e.title
    date := e.date
    startTime := e.start_time
    endTime := e.end_time
    location := e.location
    address := e.address
    cost := e.cost
    costValue := e.cost_value
    url := e.url
    description := e.description
    tags := e.tags
    status := e.status
    registrationStatus := e.registration_status
    instructor := e.instructor }

/-- Python `str <`: lexicographic comparison by code point. -/
def pyStrLtChars : List Char → List Char → Bool
  | [], [] => false
  | [], _ :: _ => true
  | _ :: _, [] => false
  | a :: as, b :: bs =>
    if a.toNat < b.toNat then true
    else if b.toNat < a.toNat then false
    else pyStrLtChars as bs

/-- Python `str <` on strings. -/
def pyStrLt (a b : String) : Bool :=
  pyStrLtChars a.data b.data

/-- Python `str >=` (`a >= b` iff `not (a < b)` for the total string order). -/
def pyStrGe (a b : String) : Bool :=
  !(pyStrLt a b)

/-- `Event.is_future` of `base.py`: `self.date >= today`, comparing
`YYYY-MM-DD` strings lexicographically.  `today` is the
`datetime.now().strftime` result, passed explicitly here. -/
def Event.is_future (e : Event) (today : String) : Bool :=
  pyStrGe e.date today

/-- The `CacheEntry` dataclass of `cache.py` (a well-formed in-memory entry;
`scraped_at` is the ISO timestamp, modelled as minutes). -/
structure CacheEntry where
  source : String
  events : List EventDict
  scraped_at : Nat
  etag : Option String := none
  last_modified : Option String := none
  url : Option String := none
deriving Repr, DecidableEq

/-- `SOURCE_TTLS` of `cache.py` combined with the `.get(source, default)`
lookup used by `is_expired`: per-source TTL in hours, default 12. -/
def SOURCE_TTLS (source : String) : Nat :=
  if source = "visarts" then 24
  else if source = "studiotwothree" then 24
  else if source = "vmfa" then 48
  else if source = "eventbrite" then 12
  else if source = "artspace" then 24
  else if source = "artworks" then 24
  else 12

/-- `CacheEntry.is_expired` of `cache.py`:
`datetime.now() > scraped_time + timedelta(hours=ttl_hours)`. -/
def CacheEntry.is_expired (e : CacheEntry) (now : Nat) : Bool :=
  decide (e.scraped_at + 60 * SOURCE_TTLS e.source < now)

/-- `CacheEntry.age_minutes` of `cache.py`. -/
def CacheEntry.age_minutes (e : CacheEntry) (now : Nat) : Nat :=
  now - e.scraped_at

/-- The `ScraperCache.cache` dict of `cache.py`: a mapping from source id to
its entry, as an insertion-ordered association list. -/
abbrev ScraperCache := List (String × CacheEntry)

/-- Dict read: first binding for the key, if any. -/
def cacheGetRaw (c : ScraperCache) (s : String) : Option CacheEntry :=
  (c.find? (fun p => p.1 == s)).map (fun p => p.2)

/-- Dict write `self.cache[source] = entry`: replace in place, else append. -/
def assocSet : ScraperCache → String → CacheEntry → ScraperCache
  | [], s, e => [(s, e)]
  | (k, v) :: rest, s, e =>
    if k == s then (s, e) :: rest else (k, v) :: assocSet rest s e

/-- Dict delete `del self.cache[source]` (dict keys are unique, so removing
every binding of the key models the deletion). -/
def assocRemove : ScraperCache → String → ScraperCache
  | [], _ => []
  | (k, v) :: rest, s =>
    if k == s then assocRemove rest s else (k, v) :: assocRemove rest s

/-- `ScraperCache.get` of `cache.py`: the entry only if present and not
expired; an expired entry is treated as absent but NOT deleted. -/
def cacheGet (c : ScraperCache) (s : String) (now : Nat) : Option CacheEntry :=
  match cacheGetRaw c s with
  | some e => if e.is_expired now then none else some e
  | none => none

/-- `ScraperCache.get_http_headers` of `cache.py`: conditional-request headers
from the (possibly expired) entry. -/
def cacheGetHttpHeaders (c : ScraperCache) (s : String) : List (String × String) :=
  match cacheGetRaw c s with
  | some e =>
    (match e.etag with | some t => [("If-None-Match", t)] | none => []) ++
    (match e.last_modified with | some m => [("If-Modified-Since", m)] | none => [])
  | none => []

/-- The in-memory effect of `ScraperCache.set` of `cache.py`: unconditionally
replace the entry with a freshly timestamped one.  (The durable `_save` step
is modelled separately where its failure matters.) -/
def cacheSet (c : ScraperCache) (s : String) (events : List EventDict)
    (url etag last_modified : Option String) (now : Nat) : ScraperCache :=
  assocSet c s
    { source := s
      events := events
      scraped_at := now
      etag := etag
      last_modified := last_modified
      url := url }

/-- `ScraperCache.invalidate` of `cache.py`: delete the entry if present, then
`_save`; `invOk = false` makes the durable write raise (an `OSError`).  The
in-memory deletion happens before the write, but a write failure propagates
out of `invalidate`. -/
def cacheInvalidate (c : ScraperCache) (s : String) (invOk : Bool) :
    Except PyErr ScraperCache :=
  if (cacheGetRaw c s).isSome then
    if invOk then .ok (assocRemove c s) else .error .osError
  else
    .ok c

/-- The `FetchResult` dataclass of `base.py`. -/
structure FetchResult where
  html : String
  status_code : Nat
  etag : Option String := none
  last_modified : Option String := none
  from_cache : Bool := false
  not_modified : Bool := false
deriving Repr, DecidableEq

/-- What `urlopen` does for one request, at the interface `BaseScraper.fetch`
consumes: a body with validators, an HTTP 304, another HTTP error, or a URL
error. -/
inductive UrlOpenOutcome where
  | ok (status : Nat) (html : String) (etag last_modified : Option String)
  | httpNotModified
  | httpErr
  | urlErr
deriving Repr, DecidableEq

/-- `BaseScraper.fetch` of `base.py` (lines 236-269): success wraps the body;
HTTP 304 is caught and returned as a `FetchResult` with `not_modified := true`
and an empty body; any other `HTTPError` is re-raised; `URLError` becomes a
`RuntimeError`. -/
def BaseScraper.fetch : UrlOpenOutcome → Except PyErr FetchResult
  | .ok status html etag lm =>
    .ok { html := html, status_code := status, etag := etag, last_modified := lm }
  | .httpNotModified =>
    .ok { html := "", status_code := 304, not_modified := true }
  | .httpErr => .error .httpError
  | .urlErr => .error .runtimeError

/-- The outcome of one `scrape()` call as `BaseScraper.run` observes it:
either a list of events or a raised exception. -/
inductive ScrapeOutcome where
  | ok (events : List Event)
  | raise
deriving Repr

/-- Result of `BaseScraper.run`: the cache state afterwards, the returned
event dicts, and whether `scrape()` (the Source Fetcher) was invoked.
`run` never raises, so there is no error case. -/
structure RunResult where
  cache : ScraperCache
  returned : List EventDict
  fetched : Bool
deriving Repr, DecidableEq

/-- `BaseScraper.run` of `base.py` (lines 312-336).  `sid`/`surl` are the
scraper's `source_id`/`source_url`; `scrapeResult` is what `self.scrape()`
does; `saveOk = false` makes the durable `_save` inside `save_to_cache`
raise.  Mirrors the source: fresh cache hit returns immediately; otherwise
scrape, filter to future events, `save_to_cache` (which updates the
in-memory dict BEFORE the durable write), and on any exception fall back to
the raw (age-ignoring) `self.cache.cache.get(self.source_id)`. -/
def BaseScraper.run (sid surl : String) (c : ScraperCache) (now : Nat)
    (today : String) (scrapeResult : ScrapeOutcome) (saveOk : Bool) : RunResult :=
  match cacheGet c sid now with
  | some entry => { cache := c, returned := entry.events, fetched := false }
  | none =>
    match scrapeResult with
    | .raise =>
      { cache := c
        returned := (cacheGetRaw c sid).elim [] CacheEntry.events
        fetched := true }
    | .ok events =>
      let future := events.filter (fun e => e.is_future today)
      let dicts := future.map Event.to_dict
      let c2 := cacheSet c sid dicts (some surl) none none now
      if saveOk then
        { cache := c2, returned := dicts, fetched := true }
      else
        { cache := c2
          returned := (cacheGetRaw c2 sid).elim [] CacheEntry.events
          fetched := true }

/-- One raw event dict in the JSON array Claude prints, as consumed by
`ClaudePlaywrightScraper.scrape` via `data.get(...)`. -/
structure RawEventData where
  title : Option String := none
  date : Option String := none
  startTime : Option String := none
  endTime : Option String := none
  location : Option String := none
  address : Option String := none
  cost : Option String := none
  costValue : Option Rat := none
  url : Option String := none
  description : Option String := none
  tags : Option (List String) := none
  registrationStatus : Option String := none
  instructor : Option String := none
deriving Repr, DecidableEq

/-- The `Event(...)` construction inside `ClaudePlaywrightScraper.scrape`
(claude_scraper.py lines 104-122), with the scraper's defaults. -/
def buildClaudeEvent (sid surl defloc defaddr : String) (dtags : List String)
    (d : RawEventData) : Event :=
  { source := sid
    source_url := surl
    title := d.title.getD ""
    date := d.date.getD ""
    start_time := d.startTime
    end_time := d.endTime
    location := d.location.getD defloc
    address := d.address.getD defaddr
    cost := d.cost.getD ""
    cost_value := d.costValue
    url := d.url.getD ""
    description := d.description.getD ""
    tags := d.tags.getD dtags
    registration_status := d.registrationStatus.getD "unknown"
    instructor := d.instructor }

/-- What the `subprocess.run(["claude", ...])` call does, at the granularity
`ClaudePlaywrightScraper.scrape` distinguishes: a timeout
(`subprocess.TimeoutExpired`), a nonzero exit, an output whose JSON
extraction gave `events_data` (or `none` when no valid JSON was found), or
some other exception inside the `try` block. -/
inductive ClaudeRunOutcome where
  | timeout
  | exitErr
  | output (events_data : Option (List RawEventData))
  | raise
deriving Repr

/-- `ClaudePlaywrightScraper.scrape` of `claude_scraper.py` (lines 72-131).
Every failure branch — including `subprocess.TimeoutExpired` (lines 126-127)
— is caught inside `scrape` and returns an empty event list; `scrape` itself
never raises. -/
def ClaudePlaywrightScraper.scrape (sid surl defloc defaddr : String)
    (dtags : List String) : ClaudeRunOutcome → ScrapeOutcome
  | .timeout => .ok []
  | .exitErr => .ok []
  | .raise => .ok []
  | .output none => .ok []
  | .output (some ds) => .ok (ds.map (buildClaudeEvent sid surl defloc defaddr dtags))

/-- The `all_scrapers` dict keys of `__init__.py` `run_all_scrapers`, in
insertion order. -/
def allScrapers : List String := ["visarts", "vmfa", "studiotwothree", "eventbrite"]

/-- The working source set (`scrapers_to_run`): the full configured set, or
its restriction to the caller-supplied `sources`. -/
def workingSources : Option (List String) → List String
  | some ss => allScrapers.filter (fun k => k ∈ ss)
  | none => allScrapers

/-- The `source_url` each factory in `claude_scraper.py` configures. -/
def sourceUrlOf (s : String) : String :=
  if s = "visarts" then
    "https://www.visarts.org/classes/?fwp_classes_duration=open-figure-draw-paint"
  else if s = "vmfa" then
    "https://vmfa.museum/calendar/classes/?fwp_keywords=figure%20drawing"
  else if s = "studiotwothree" then
    "https://www.studiotwothree.org/adult-workshops"
  else if s = "eventbrite" then
    "https://www.eventbrite.com/d/va--richmond/figure-drawing/"
  else ""

/-- The `force_refresh` loop of `run_all_scrapers` (lines 67-71):
`cache.invalidate(source_id)` for every working source, in order; a durable
write failure propagates immediately. -/
def invalidateAll (ws : List String) (invOk : Bool) (c : ScraperCache) :
    Except PyErr ScraperCache :=
  match ws with
  | [] => .ok c
  | s :: rest =>
    match cacheInvalidate c s invOk with
    | .error e => .error e
    | .ok c' => invalidateAll rest invOk c'

/-- The partition loop of `run_all_scrapers` (lines 81-87): for each working
source, `if cached and not force_refresh` collect `cached.events` into
`cached_events`, else append the source to `scrapers_needed`. -/
def aggPartition (fr : Bool) (c : ScraperCache) (now : Nat) :
    List String → List EventDict × List String
  | [] => ([], [])
  | s :: rest =>
    let (ce, nd) := aggPartition fr c now rest
    match cacheGet c s now with
    | some entry => if fr then (ce, s :: nd) else (entry.events ++ ce, nd)
    | none => (ce, s :: nd)

/-- The sequential fetch loop of `run_all_scrapers` (lines 97-103): invoke
`scraper.run()` for each needed source, threading the shared cache, and
collect the returned events.  The third component records, per source in
order, whether its `scrape()` was actually invoked. -/
def aggFetch (now : Nat) (today : String) (scrapeOf : String → ScrapeOutcome)
    (saveOkOf : String → Bool) (c : ScraperCache) :
    List String → ScraperCache × List EventDict × List (String × Bool)
  | [] => (c, [], [])
  | s :: rest =>
    ((aggFetch now today scrapeOf saveOkOf
        (BaseScraper.run s (sourceUrlOf s) c now today (scrapeOf s) (saveOkOf s)).cache rest).1,
     (BaseScraper.run s (sourceUrlOf s) c now today (scrapeOf s) (saveOkOf s)).returned ++
       (aggFetch now today scrapeOf saveOkOf
         (BaseScraper.run s (sourceUrlOf s) c now today (scrapeOf s) (saveOkOf s)).cache rest).2.1,
     (s, (BaseScraper.run s (sourceUrlOf s) c now today (scrapeOf s) (saveOkOf s)).fetched) ::
       (aggFetch now today scrapeOf saveOkOf
         (BaseScraper.run s (sourceUrlOf s) c now today (scrapeOf s) (saveOkOf s)).cache rest).2.2)

/-- The sort key of `run_all_scrapers` line 109:
`(e.get("date", ""), e.get("startTime", ""))`.  Both keys are always present
in a `to_dict` dict, so the defaults never apply and `startTime` can be the
Python value `None`. -/
def sortKey (e : EventDict) : String × Option String :=
  (e.date, e.startTime)

/-- Python `<` on two sort keys (tuple comparison): elements are compared
with `==` until the first difference, which is compared with `<`; comparing
`None` with a `str` raises `TypeError`. -/
def pyLtKey (k1 k2 : String × Option String) : Except PyErr Bool :=
  if k1.1 = k2.1 then
    match k1.2, k2.2 with
    | none, none => .ok false
    | some a, some b => .ok (pyStrLt a b)
    | _, _ => .error .typeError
  else
    .ok (pyStrLt k1.1 k2.1)

/-- Stable insertion of `x` into an already-sorted list, using the fallible
Python key comparison: `x` goes before the first element `y` with
`not (key y < key x)`, so equal keys keep their original relative order. -/
def pyInsertEvent (x : EventDict) : List EventDict → Except PyErr (List EventDict)
  | [] => .ok [x]
  | y :: ys =>
    match pyLtKey (sortKey y) (sortKey x) with
    | .error e => .error e
    | .ok true =>
      match pyInsertEvent x ys with
      | .error e => .error e
      | .ok rest => .ok (y :: rest)
    | .ok false => .ok (x :: y :: ys)

/-- `all_events.sort(key=...)` of `run_all_scrapers` line 109, modelled as a
stable insertion sort over the same fallible comparison (Python's sort is
stable and raises the comparison's `TypeError`). -/
def pySortEvents : List EventDict → Except PyErr (List EventDict)
  | [] => .ok []
  | x :: xs =>
    match pySortEvents xs with
    | .error e => .error e
    | .ok s => pyInsertEvent x s

/-- The dedup key of `run_all_scrapers` line 115:
`(event.get("date"), event.get("location"), event.get("startTime"))`. -/
def dedupKey (e : EventDict) : String × String × Option String :=
  (e.date, e.location, e.startTime)

/-- The dedup loop of `run_all_scrapers` (lines 111-118), with the `seen` set
as a list of keys. -/
def dedupGo (seen : List (String × String × Option String)) :
    List EventDict → List EventDict
  | [] => []
  | e :: rest =>
    if dedupKey e ∈ seen then dedupGo seen rest
    else e :: dedupGo (dedupKey e :: seen) rest

/-- Deduplication as performed by `run_all_scrapers`: first occurrence of
each composite key wins. -/
def dedupEvents (l : List EventDict) : List EventDict :=
  dedupGo [] l

/-- Modelled from the spec (§4.3 step 7): "Deduplicate on the composite key
(date, location, start time): first occurrence in sorted order wins, later
duplicates are dropped."  An element is kept exactly when no earlier element
has the same key; stated as the recursion that keeps the head and deletes its
later duplicates.  Used only to compare against `dedupEvents`. -/
def specFirstOccurrences : List EventDict → List EventDict
  | [] => []
  | e :: rest =>
    e :: specFirstOccurrences (rest.filter (fun x => decide (dedupKey x ≠ dedupKey e)))
termination_by l => l.length
decreasing_by
  simp only [List.length_cons]
  exact Nat.lt_succ_of_le (List.length_filter_le _ _)

/-- Result of a successful `run_all_scrapers` call: the deduplicated sorted
events, the final cache, the `scrapers_needed` partition, and per needed
source whether its `scrape()` was invoked. -/
structure AggResult where
  events : List EventDict
  cache : ScraperCache
  needed : List String
  invoked : List (String × Bool)
deriving Repr, DecidableEq

/-- `run_all_scrapers` of `__init__.py` (lines 29-121): resolve the working
set, invalidate it when `force_refresh` (write failures propagate), partition
into cached vs needed BEFORE fetching, run the needed scrapers sequentially
(each `scraper.run()` call is wrapped in try/except, but `run` never raises),
extend with the cached events, sort (a comparison `TypeError` propagates) and
deduplicate. -/
def run_all_scrapers (force_refresh : Bool) (sources : Option (List String))
    (now : Nat) (today : String) (scrapeOf : String → ScrapeOutcome)
    (saveOkOf : String → Bool) (invOk : Bool) (c0 : ScraperCache) :
    Except PyErr AggResult :=
  let ws := workingSources sources
  match (match force_refresh with
         | true => invalidateAll ws invOk c0
         | false => .ok c0) with
  | .error e => .error e
  | .ok c1 =>
    let (cachedEvents, needed) := aggPartition force_refresh c1 now ws
    let (c2, fetchedEvents, invoked) := aggFetch now today scrapeOf saveOkOf c1 needed
    match pySortEvents (fetchedEvents ++ cachedEvents) with
    | .error e => .error e
    | .ok sorted =>
      .ok { events := dedupEvents sorted, cache := c2, needed := needed, invoked := invoked }

/-- A JSON document, as `json.load` produces it (numbers as integers suffice
for the cache-file shapes the load path distinguishes). -/
inductive Json where
  | null
  | bool (b : Bool)
  | num (n : Int)
  | str (s : String)
  | arr (xs : List Json)
  | obj (kvs : List (String × Json))

/-- Lookup in a JSON object (dict keys are unique after `json.load`). -/
def jsonLookup (kvs : List (String × Json)) (k : String) : Option Json :=
  (kvs.find? (fun p => p.1 == k)).map (fun p => p.2)

/-- A cache entry as `_load` constructs it with `CacheEntry(**entry_data)`:
the dataclass does not type-check its fields, so each holds raw JSON; the
three optional fields default to Python `None` (JSON `null`). -/
structure LoadedCacheEntry where
  source : Json
  events : Json
  scraped_at : Json
  etag : Json := .null
  last_modified : Json := .null
  url : Json := .null

/-- `CacheEntry(**entry_data)` of `cache.py` line 67: raises `TypeError` when
`entry_data` is not a mapping, when it has a key that is not a `CacheEntry`
field, or when a required field (`source`, `events`, `scraped_at`) is
missing; otherwise builds the entry. -/
def entryFromJson : Json → Except PyErr LoadedCacheEntry
  | .obj kvs =>
    if kvs.all (fun p =>
        p.1 == "source" || p.1 == "events" || p.1 == "scraped_at" ||
        p.1 == "etag" || p.1 == "last_modified" || p.1 == "url") then
      match jsonLookup kvs "source", jsonLookup kvs "events", jsonLookup kvs "scraped_at" with
      | some s, some ev, some sc =>
        .ok { source := s
              events := ev
              scraped_at := sc
              etag := (jsonLookup kvs "etag").getD .null
              last_modified := (jsonLookup kvs "last_modified").getD .null
              url := (jsonLookup kvs "url").getD .null }
      | _, _, _ => .error .typeError
    else .error .typeError
  | _ => .error .typeError

/-- The states of the durable cache file that `_load` distinguishes. -/
inductive FileState where
  | absent
  | unreadable
  | undecodable
  | notJson
  | doc (j : Json)

/-- `ScraperCache._load` of `cache.py` (lines 60-70).  A missing file is
skipped; `open` raising `OSError`, or reading raising `UnicodeDecodeError`,
is NOT caught (only `json.JSONDecodeError` and `TypeError` are) and so
propagates out of the constructor; text that is not JSON is caught and
degrades to the empty store; a JSON document is iterated with
`data.items()`, which raises an uncaught `AttributeError` unless the top
level is an object; a `TypeError` from any entry is caught and leaves the
store empty. -/
def scraperCacheLoad : FileState → Except PyErr (List (String × LoadedCacheEntry))
  | .absent => .ok []
  | .unreadable => .error .osError
  | .undecodable => .error .unicodeDecodeError
  | .notJson => .ok []
  | .doc (.obj kvs) =>
    match kvs.mapM (fun p => (entryFromJson p.2).map (fun e => (p.1, e))) with
    | .ok entries => .ok entries
    | .error _ => .ok []
  | .doc _ => .error .attributeError

/-- A concrete cached eventbrite event dict (payload E of the C1 scenario). -/
def evEB : EventDict :=
  { source := "eventbrite"
    sourceUrl := "https://www.eventbrite.com/d/va--richmond/figure-drawing/"
    title := "Life Drawing"
    date := "2099-01-01"
    startTime := some "18:00"
    location := "Studio A" }

/-- A cached eventbrite entry holding one event and an ETag (so a conditional
re-fetch can answer 304), already expired at the times used below. -/
def entryEB : CacheEntry :=
  { source := "eventbrite"
    events := [evEB]
    scraped_at := 0
    etag := some "W-abc"
    url := some (sourceUrlOf "eventbrite") }

/-- A concrete cached visarts event dict. -/
def evVA : EventDict :=
  { source := "visarts"
    sourceUrl := "https://www.visarts.org/classes/?fwp_classes_duration=open-figure-draw-paint"
    title := "Open Figure Drawing"
    date := "2099-01-01"
    startTime := some "19:00"
    location := "Visual Arts Center of Richmond" }

/-- A cached visarts entry with one event, scraped at time 0. -/
def entryVA : CacheEntry :=
  { source := "visarts"
    events := [evVA]
    scraped_at := 0
    url := some (sourceUrlOf "visarts") }

/-- Event with a present start time on 2024-06-01 (sort-crash scenario). -/
def evClashA : EventDict :=
  { source := "visarts"
    sourceUrl := ""
    title := "Evening session"
    date := "2024-06-01"
    startTime := some "18:00"
    location := "Studio A" }

/-- Event with an absent (`None`) start time on the same date. -/
def evClashB : EventDict :=
  { source := "vmfa"
    sourceUrl := ""
    title := "Untimed session"
    date := "2024-06-01"
    startTime := none
    location := "Studio B" }

/-- A fresh cache entry whose event list contains the clashing pair. -/
def entryClash : CacheEntry :=
  { source := "visarts"
    events := [evClashA, evClashB]
    scraped_at := 1000 }

/-- The three events of the spec's sort example, in presentation order. -/
def evMay18 : EventDict :=
  { source := "a", sourceUrl := "", title := "x", date := "2024-05-01", startTime := some "18:00" }

def evMay09 : EventDict :=
  { source := "b", sourceUrl := "", title := "y", date := "2024-05-01", startTime := some "09:00" }

def evAprNone : EventDict :=
  { source := "c", sourceUrl := "", title := "z", date := "2024-04-30", startTime := none }

/-- Two events with the same dedup key (date, location, start time) but
different titles, from distinct sources. -/
def evDupA : EventDict :=
  { source := "visarts"
    sourceUrl := ""
    title := "Figure Drawing"
    date := "2024-06-01"
    startTime := some "18:00"
    location := "Studio A" }

def evDupB : EventDict :=
  { source := "eventbrite"
    sourceUrl := ""
    title := "Drink and Draw"
    date := "2024-06-01"
    startTime := some "18:00"
    location := "Studio A" }

/-- The cache entry each scraper run writes in the C3 counterexample run. -/
def c3entry (s : String) : CacheEntry :=
  { source := s
    events := []
    scraped_at := 1000
    url := some (sourceUrlOf s) }

theorem cacheGetRaw_nil (t : String) : cacheGetRaw [] t = none := rfl

theorem cacheGetRaw_cons (k : String) (v : CacheEntry) (rest : ScraperCache)
    (t : String) :
    cacheGetRaw ((k, v) :: rest) t = if k = t then some v else cacheGetRaw rest t := by
  by_cases hk : k = t
  · rw [cacheGetRaw, List.find?_cons_of_pos _ (by simp [hk]), if_pos hk]
    rfl
  · rw [cacheGetRaw, List.find?_cons_of_neg _ (by simp [hk]), if_neg hk]
    rfl

theorem cacheGetRaw_assocSet_self (c : ScraperCache) (s : String) (e : CacheEntry) :
    cacheGetRaw (assocSet c s e) s = some e := by
  induction c with
  | nil => simp [assocSet, cacheGetRaw_cons]
  | cons p rest ih =>
    obtain ⟨k, v⟩ := p
    by_cases h : k = s
    · simp [assocSet, h, cacheGetRaw_cons]
    · simp only [assocSet, beq_iff_eq, h, if_false]
      rw [cacheGetRaw_cons, if_neg h]
      exact ih

theorem cacheGetRaw_assocSet_ne (c : ScraperCache) (s t : String) (e : CacheEntry)
    (h : t ≠ s) : cacheGetRaw (assocSet c s e) t = cacheGetRaw c t := by
  induction c with
  | nil => simp [assocSet, cacheGetRaw_cons, cacheGetRaw_nil, Ne.symm h]
  | cons p rest ih =>
    obtain ⟨k, v⟩ := p
    by_cases hk : k = s
    · subst hk
      simp only [assocSet, beq_self_eq_true, if_true]
      rw [cacheGetRaw_cons, cacheGetRaw_cons, if_neg (Ne.symm h), if_neg]
      intro hkt
      exact h hkt.symm
    · simp only [assocSet, beq_iff_eq, hk, if_false]
      rw [cacheGetRaw_cons, cacheGetRaw_cons]
      by_cases hkt : k = t
      · simp [hkt]
      · rw [if_neg hkt, if_neg hkt]
        exact ih

theorem cacheGetRaw_assocRemove (c : ScraperCache) (s t : String) :
    cacheGetRaw (assocRemove c s) t = if t = s then none else cacheGetRaw c t := by
  induction c with
  | nil => simp [assocRemove, cacheGetRaw_nil]
  | cons p rest ih =>
    obtain ⟨k, v⟩ := p
    by_cases hk : k = s
    · simp only [assocRemove, beq_iff_eq, hk, if_true]
      rw [ih]
      by_cases hts : t = s
      · simp [hts]
      · rw [if_neg hts, if_neg hts, cacheGetRaw_cons, if_neg]
        intro hkt
        exact hts hkt.symm
    · simp only [assocRemove, beq_iff_eq, hk, if_false]
      rw [cacheGetRaw_cons, cacheGetRaw_cons, ih]
      by_cases hkt : k = t
      · have hts : t ≠ s := by
          intro h'
          exact hk (hkt.trans h')
        simp [hkt, hts]
      · simp [hkt]

theorem run_fetched_of_miss (sid surl : String) (c : ScraperCache) (now : Nat)
    (today : String) (scr : ScrapeOutcome) (sok : Bool)
    (h : cacheGet c sid now = none) :
    (BaseScraper.run sid surl c now today scr sok).fetched = true := by
  unfold BaseScraper.run
  rw [h]
  cases scr with
  | raise => rfl
  | ok events => cases sok <;> rfl

theorem run_cache_other (sid surl : String) (c : ScraperCache) (now : Nat)
    (today : String) (scr : ScrapeOutcome) (sok : Bool) (t : String)
    (hts : t ≠ sid) :
    cacheGetRaw (BaseScraper.run sid surl c now today scr sok).cache t = cacheGetRaw c t := by
  have hset : ∀ xs url etag lm,
      cacheGetRaw (cacheSet c sid xs url etag lm now) t = cacheGetRaw c t :=
    fun xs url etag lm => cacheGetRaw_assocSet_ne c sid t _ hts
  unfold BaseScraper.run
  cases hg : cacheGet c sid now with
  | some entry => rfl
  | none =>
    cases scr with
    | raise => rfl
    | ok events => cases sok <;> exact hset _ _ _ _

theorem invalidateAll_true_ok (ws : List String) (c : ScraperCache) :
    ∃ c', invalidateAll ws true c = .ok c' ∧
      ∀ t, (t ∈ ws ∨ cacheGetRaw c t = none) → cacheGetRaw c' t = none := by
  induction ws generalizing c with
  | nil =>
    refine ⟨c, rfl, ?_⟩
    intro t ht
    rcases ht with ht | ht
    · exact absurd ht (List.not_mem_nil t)
    · exact ht
  | cons s rest ih =>
    have hstep : ∃ c1, cacheInvalidate c s true = .ok c1 ∧
        cacheGetRaw c1 s = none ∧ ∀ t, cacheGetRaw c t = none → cacheGetRaw c1 t = none := by
      unfold cacheInvalidate
      by_cases hp : (cacheGetRaw c s).isSome
      · refine ⟨assocRemove c s, by simp [hp], ?_, ?_⟩
        · rw [cacheGetRaw_assocRemove, if_pos rfl]
        · intro t ht
          rw [cacheGetRaw_assocRemove]
          by_cases hts : t = s
          · simp [hts]
          · simpa [hts] using ht
      · refine ⟨c, by simp [hp], ?_, fun t ht => ht⟩
        rw [Option.isSome_iff_exists] at hp
        push_neg at hp
        cases hcs : cacheGetRaw c s with
        | none => rfl
        | some e => exact absurd hcs (hp e)
    obtain ⟨c1, h1, h1s, h1keep⟩ := hstep
    obtain ⟨c', h2, h2none⟩ := ih c1
    refine ⟨c', ?_, ?_⟩
    · unfold invalidateAll
      rw [h1]
      exact h2
    · intro t ht
      rcases ht with ht | ht
      · rcases List.mem_cons.mp ht with hts | htr
        · exact h2none t (Or.inr (hts ▸ h1s))
        · exact h2none t (Or.inl htr)
      · exact h2none t (Or.inr (h1keep t ht))

theorem invalidateAll_false_error (ws : List String) (c : ScraperCache)
    (h : ∃ s ∈ ws, (cacheGetRaw c s).isSome = true) :
    invalidateAll ws false c = .error .osError := by
  induction ws generalizing c with
  | nil =>
    obtain ⟨s, hs, _⟩ := h
    exact absurd hs (List.not_mem_nil s)
  | cons s rest ih =>
    by_cases hp : (cacheGetRaw c s).isSome = true
    · unfold invalidateAll cacheInvalidate
      rw [if_pos hp, if_neg (by simp)]
    · have hinv : cacheInvalidate c s false = .ok c := by
        unfold cacheInvalidate
        rw [if_neg hp]
      unfold invalidateAll
      rw [hinv]
      obtain ⟨t, ht, htsome⟩ := h
      rcases List.mem_cons.mp ht with hts | htr
      · exact absurd (hts ▸ htsome) hp
      · exact ih c ⟨t, htr, htsome⟩

theorem aggPartition_force (c : ScraperCache) (now : Nat) (ws : List String) :
    aggPartition true c now ws = ([], ws) := by
  induction ws with
  | nil => rfl
  | cons s rest ih =>
    unfold aggPartition
    rw [ih]
    cases cacheGet c s now <;> rfl

theorem mem_needed_get_none (c : ScraperCache) (now : Nat) :
    ∀ (ws : List String) (t : String),
      t ∈ (aggPartition false c now ws).2 → cacheGet c t now = none := by
  intro ws
  induction ws with
  | nil =>
    intro t ht
    simp [aggPartition] at ht
  | cons s rest ih =>
    intro t ht
    unfold aggPartition at ht
    cases hp : aggPartition false c now rest with
    | mk ce nd =>
      rw [hp] at ht
      cases hg : cacheGet c s now with
      | some entry =>
        rw [hg] at ht
        simp only [if_false, Bool.false_eq_true] at ht
        exact ih t (by rw [hp]; exact ht)
      | none =>
        rw [hg] at ht
        rcases List.mem_cons.mp ht with hts | htr
        · exact hts ▸ hg
        · exact ih t (by rw [hp]; exact htr)

theorem aggFetch_all_fetched (now : Nat) (today : String)
    (scf : String → ScrapeOutcome) (sof : String → Bool) :
    ∀ (ws : List String) (c : ScraperCache), ws.Nodup →
      (∀ s ∈ ws, cacheGetRaw c s = none) →
      ∀ s ∈ ws, (s, true) ∈ (aggFetch now today scf sof c ws).2.2 := by
  intro ws
  induction ws with
  | nil =>
    intro c _ _ s hs
    exact absurd hs (List.not_mem_nil s)
  | cons h rest ih =>
    intro c hnd hnone s hs
    have hmiss : cacheGet c h now = none := by
      unfold cacheGet
      rw [hnone h (List.mem_cons_self h rest)]
    have hfetched := run_fetched_of_miss h (sourceUrlOf h) c now today (scf h) (sof h) hmiss
    have hgoal : (aggFetch now today scf sof c (h :: rest)).2.2 =
        (h, (BaseScraper.run h (sourceUrlOf h) c now today (scf h) (sof h)).fetched) ::
          (aggFetch now today scf sof
            (BaseScraper.run h (sourceUrlOf h) c now today (scf h) (sof h)).cache rest).2.2 := rfl
    rw [hgoal, hfetched]
    rcases List.mem_cons.mp hs with hsh | hsr
    · subst hsh
      exact List.mem_cons_self _ _
    · have hnd' := (List.nodup_cons.mp hnd).2
      have hnh := (List.nodup_cons.mp hnd).1
      have hnone' : ∀ t ∈ rest, cacheGetRaw
          (BaseScraper.run h (sourceUrlOf h) c now today (scf h) (sof h)).cache t = none := by
        intro t htr
        have htsne : t ≠ h := fun he => hnh (he ▸ htr)
        rw [run_cache_other h (sourceUrlOf h) c now today (scf h) (sof h) t htsne]
        exact hnone t (List.mem_cons_of_mem h htr)
      exact List.mem_cons_of_mem _
        (ih (BaseScraper.run h (sourceUrlOf h) c now today (scf h) (sof h)).cache hnd' hnone' s hsr)

theorem workingSources_nodup (sources : Option (List String)) :
    (workingSources sources).Nodup := by
  cases sources with
  | none => decide
  | some ss =>
    unfold workingSources
    exact List.Nodup.filter _ (by decide)

theorem pyLtKey_error (k1 k2 : String × Option String) (e : PyErr)
    (h : pyLtKey k1 k2 = .error e) : e = .typeError := by
  unfold pyLtKey at h
  by_cases hd : k1.1 = k2.1
  · rw [if_pos hd] at h
    cases h1 : k1.2 with
    | none =>
      cases h2 : k2.2 with
      | none => rw [h1, h2] at h; exact absurd h (by simp)
      | some b => rw [h1, h2] at h; exact (Except.error.injEq _ _).mp h.symm
    | some a =>
      cases h2 : k2.2 with
      | none => rw [h1, h2] at h; exact (Except.error.injEq _ _).mp h.symm
      | some b => rw [h1, h2] at h; exact absurd h (by simp)
  · rw [if_neg hd] at h
    exact absurd h (by simp)

theorem pyInsertEvent_error (x : EventDict) :
    ∀ (l : List EventDict) (e : PyErr), pyInsertEvent x l = .error e → e = .typeError := by
  intro l
  induction l with
  | nil =>
    intro e h
    exact absurd h (by simp [pyInsertEvent])
  | cons y ys ih =>
    intro e h
    unfold pyInsertEvent at h
    cases hc : pyLtKey (sortKey y) (sortKey x) with
    | error e' =>
      rw [hc] at h
      cases h
      exact pyLtKey_error _ _ _ hc
    | ok b =>
      rw [hc] at h
      cases b with
      | true =>
        cases hr : pyInsertEvent x ys with
        | error e' =>
          rw [hr] at h
          cases h
          exact ih _ hr
        | ok rest => rw [hr] at h; exact absurd h (by simp)
      | false => exact absurd h (by simp)

theorem pySortEvents_error :
    ∀ (l : List EventDict) (e : PyErr), pySortEvents l = .error e → e = .typeError := by
  intro l
  induction l with
  | nil =>
    intro e h
    exact absurd h (by simp [pySortEvents])
  | cons x xs ih =>
    intro e h
    unfold pySortEvents at h
    cases hs : pySortEvents xs with
    | error e' =>
      rw [hs] at h
      cases h
      exact ih _ hs
    | ok s =>
      rw [hs] at h
      exact pyInsertEvent_error x s e h

theorem dedupGo_eq_spec :
    ∀ (l : List EventDict) (seen : List (String × String × Option String)),
      dedupGo seen l =
        specFirstOccurrences (l.filter (fun e => decide (dedupKey e ∉ seen))) := by
  intro l
  induction l with
  | nil =>
    intro seen
    rw [List.filter_nil]
    simp [dedupGo, specFirstOccurrences]
  | cons e rest ih =>
    intro seen
    by_cases h : dedupKey e ∈ seen
    · rw [dedupGo, if_pos h, List.filter_cons_of_neg (by simpa using h)]
      exact ih seen
    · rw [dedupGo, if_neg h, List.filter_cons_of_pos (by simpa using h),
        specFirstOccurrences, ih (dedupKey e :: seen), List.filter_filter]
      have hfilter : List.filter (fun x => decide (dedupKey x ∉ dedupKey e :: seen)) rest =
          List.filter (fun a => decide (dedupKey a ≠ dedupKey e) && decide (dedupKey a ∉ seen)) rest := by
        apply List.filter_congr
        intro x _
        by_cases hx : dedupKey x = dedupKey e
        · simp [hx]
        · simp [hx, List.mem_cons]
      rw [hfilter]

/-- Claim C4: a Cache Entry fetched at time T with TTL H hours is expired
exactly when now is strictly greater than T plus H hours, so `get` returns
the entry at any time up to and including T+H and returns absent strictly
after, while the entry itself stays in the raw store (nothing deletes it) and
so remains retrievable for stale fallback in both cases. -/
theorem claim4_ttl_boundary (c : ScraperCache) (s : String) (e : CacheEntry)
    (now : Nat) (h : cacheGetRaw c s = some e) :
    (e.is_expired now = true ↔ e.scraped_at + 60 * SOURCE_TTLS e.source < now) ∧
    (now ≤ e.scraped_at + 60 * SOURCE_TTLS e.source → cacheGet c s now = some e) ∧
    (e.scraped_at + 60 * SOURCE_TTLS e.source < now →
      cacheGet c s now = none ∧ cacheGetRaw c s = some e) := by
  refine ⟨by simp [CacheEntry.is_expired], ?_, ?_⟩
  · intro hle
    simp only [cacheGet, h]
    rw [if_neg]
    simp only [CacheEntry.is_expired, decide_eq_true_eq]
    omega
  · intro hlt
    refine ⟨?_, h⟩
    simp only [cacheGet, h]
    rw [if_pos]
    simp only [CacheEntry.is_expired, decide_eq_true_eq]
    omega

/-- A visarts entry fetched at time T = 1000 (minutes), TTL 24 h. -/
def entryTtlW : CacheEntry :=
  { source := "visarts", events := [evVA], scraped_at := 1000 }

/-- Witness for C4: with T = 1000 and H = 24 h (so T+H = 2440), `get` returns
the entry at T+H-1min = 2439 and absent at T+H+1min = 2441, where the raw
store still holds it. -/
theorem claim4_ttl_boundary_witness :
    cacheGet [("visarts", entryTtlW)] "visarts" 2439 = some entryTtlW ∧
    (cacheGet [("visarts", entryTtlW)] "visarts" 2441 = none ∧
      cacheGetRaw [("visarts", entryTtlW)] "visarts" = some entryTtlW) := by
  constructor
  · exact (claim4_ttl_boundary _ _ _ _ (by decide)).2.1 (by decide)
  · exact (claim4_ttl_boundary _ _ _ _ (by decide)).2.2 (by decide)

/-- Claim C10: `set` followed by `get` round-trips — immediately after
`set(source, events, url, etag, last_modified)` the call `get(source)`
returns an entry holding exactly the stored arguments with the fresh
timestamp, and every configured TTL is a positive number of hours (so the
fresh entry is non-expired; indeed the expiry comparison is strict, so this
holds for any TTL). -/
theorem claim10_set_get_roundtrip (c : ScraperCache) (s : String)
    (events : List EventDict) (url etag lm : Option String) (now : Nat) :
    0 < SOURCE_TTLS s ∧
    cacheGet (cacheSet c s events url etag lm now) s now =
      some { source := s, events := events, scraped_at := now,
             etag := etag, last_modified := lm, url := url } := by
  constructor
  · unfold SOURCE_TTLS
    split_ifs <;> norm_num
  · unfold cacheSet
    simp only [cacheGet, cacheGetRaw_assocSet_self]
    rw [if_neg]
    simp [CacheEntry.is_expired]

/-- Claim C5: for a source with a fresh (non-expired) cache entry, the
Scraper Runner returns that entry's events, leaves the cache unchanged, and
never invokes the Source Fetcher; and the Aggregation Pipeline's partition
(without force_refresh) never places such a source in `scrapers_needed`. -/
theorem claim5_cache_hit_no_fetch (sid surl : String) (c : ScraperCache)
    (now : Nat) (today : String) (scr : ScrapeOutcome) (sok : Bool)
    (entry : CacheEntry) (ws : List String)
    (h : cacheGet c sid now = some entry) :
    BaseScraper.run sid surl c now today scr sok =
      { cache := c, returned := entry.events, fetched := false } ∧
    sid ∉ (aggPartition false c now ws).2 := by
  constructor
  · unfold BaseScraper.run
    rw [h]
  · intro hmem
    have := mem_needed_get_none c now ws sid hmem
    rw [h] at this
    exact Option.noConfusion this

/-- Witness for C5: a fresh visarts entry at time 100 is served from cache,
with no fetch and no membership in the needed partition. -/
theorem claim5_cache_hit_no_fetch_witness :
    BaseScraper.run "visarts" "u" [("visarts", entryVA)] 100 "2024-01-01"
        (.ok []) true =
      { cache := [("visarts", entryVA)], returned := entryVA.events, fetched := false } ∧
    "visarts" ∉ (aggPartition false [("visarts", entryVA)] 100 allScrapers).2 :=
  claim5_cache_hit_no_fetch "visarts" "u" [("visarts", entryVA)] 100 "2024-01-01"
    (.ok []) true entryVA allScrapers (by decide)

/-- Claim C8: deduplication keeps exactly the first occurrence of each
composite key (date, location, start time) and drops every later event with
the same key (`dedupEvents` equals the spec-worded first-occurrence
recursion); in particular two events with the same key but different titles
collapse to the one that comes first. -/
theorem claim8_dedup_first_occurrence :
    (∀ l : List EventDict, dedupEvents l = specFirstOccurrences l) ∧
    dedupEvents [evDupA, evDupB] = [evDupA] ∧
    dedupKey evDupA = dedupKey evDupB ∧
    evDupA.title ≠ evDupB.title := by
  refine ⟨?_, by decide, by decide, by decide⟩
  intro l
  unfold dedupEvents
  rw [dedupGo_eq_spec l []]
  congr 1
  apply List.filter_eq_self.mpr
  intro x _
  simp

/-- Claim C7 (code bug): the sort key is `(e.get("date",""), e.get("startTime",""))`,
but `startTime` is always a present key whose value may be `None`, so when
two merged events share a date and exactly one has an absent start time the
comparison is `None < str` and `list.sort` raises `TypeError` — the absent
start time does NOT sort before the present one; the run aborts instead.  On
the spec's own three-event example the dates differ wherever `None` appears,
no `None`-vs-`str` comparison happens, and the claimed order does come out. -/
theorem claim7_sort_raises_on_null_start :
    pySortEvents [evClashA, evClashB] = .error .typeError ∧
    evClashA.date = evClashB.date ∧
    evClashB.startTime = none ∧
    pySortEvents [evMay18, evMay09, evAprNone] = .ok [evAprNone, evMay09, evMay18] := by
  refine ⟨by decide, by decide, by decide, by decide⟩

/-- Claim C1 (code bug): `fetch` converts HTTP 304 into a successful
`FetchResult` with an empty body and `not_modified := true`, but no consumer
ever inspects that flag: `run` treats the resulting zero-event scrape as an
ordinary success and persists it via `set`, so the post-run Cache Entry's
event list is overwritten with `[]` (and its stored validators are lost),
instead of being preserved with only a refreshed timestamp. -/
theorem claim1_not_modified_overwrites :
    BaseScraper.fetch .httpNotModified =
      .ok { html := "", status_code := 304, etag := none, last_modified := none,
            from_cache := false, not_modified := true } ∧
    (BaseScraper.run "eventbrite" (sourceUrlOf "eventbrite")
        [("eventbrite", entryEB)] 100000 "2024-01-01" (.ok []) true).returned = [] ∧
    cacheGetRaw (BaseScraper.run "eventbrite" (sourceUrlOf "eventbrite")
        [("eventbrite", entryEB)] 100000 "2024-01-01" (.ok []) true).cache "eventbrite" =
      some { source := "eventbrite", events := [], scraped_at := 100000,
             etag := none, last_modified := none,
             url := some (sourceUrlOf "eventbrite") } ∧
    entryEB.events ≠ [] := by
  refine ⟨by decide, by decide, by decide, by decide⟩

/-- Counterexample to C9: a durable cache file holding the valid JSON
document `[]` (an array, not an object) makes `_load` raise an uncaught
`AttributeError` at `data.items()` — constructing the Cache Store does not
succeed with an empty store. -/
theorem claim9_counterexample :
    scraperCacheLoad (.doc (.arr [])) = .error .attributeError := rfl

/-- Claim C9 as amended: a file that fails JSON parsing, or parses as a JSON
object one of whose entries is malformed (a caught `TypeError`), degrades to
the empty in-memory store with a warning, and a well-formed object loads its
entries; but an unreadable file, an undecodable (non-UTF-8) file, or a valid
JSON document whose top level is not an object raises a fatal error out of
construction. -/
theorem claim9_amended :
    scraperCacheLoad .notJson = .ok [] ∧
    scraperCacheLoad .absent = .ok [] ∧
    scraperCacheLoad .unreadable = .error .osError ∧
    scraperCacheLoad .undecodable = .error .unicodeDecodeError ∧
    (∀ (kvs : List (String × Json)) (e : PyErr),
      kvs.mapM (fun p => (entryFromJson p.2).map (fun en => (p.1, en))) = .error e →
      scraperCacheLoad (.doc (.obj kvs)) = .ok []) ∧
    (∀ (kvs : List (String × Json)) (entries : List (String × LoadedCacheEntry)),
      kvs.mapM (fun p => (entryFromJson p.2).map (fun en => (p.1, en))) = .ok entries →
      scraperCacheLoad (.doc (.obj kvs)) = .ok entries) ∧
    (∀ j : Json, (∀ kvs, j ≠ Json.obj kvs) →
      scraperCacheLoad (.doc j) = .error .attributeError) := by
  refine ⟨rfl, rfl, rfl, rfl, ?_, ?_, ?_⟩
  · intro kvs e h
    simp only [scraperCacheLoad]
    rw [h]
  · intro kvs entries h
    simp only [scraperCacheLoad]
    rw [h]
  · intro j hj
    cases j with
    | null => rfl
    | bool b => rfl
    | num n => rfl
    | str s => rfl
    | arr xs => rfl
    | obj kvs => exact absurd rfl (hj kvs)

/-- Witness for C9's amended claim: a JSON object with one malformed entry
(the value `3` is not a mapping) degrades to the empty store, and a
non-object document (a string) raises. -/
theorem claim9_amended_witness :
    scraperCacheLoad (.doc (.obj [("visarts", Json.num 3)])) = .ok [] ∧
    scraperCacheLoad (.doc (.str "x")) = .error .attributeError := by
  constructor
  · exact claim9_amended.2.2.2.2.1 [("visarts", Json.num 3)] .typeError rfl
  · exact claim9_amended.2.2.2.2.2.2 (.str "x") (fun kvs h => Json.noConfusion h)

/-- Counterexample to C2: with an expired cached visarts entry holding one
event, a Claude-scraper subprocess timeout does NOT trigger the stale
fallback — `scrape` catches `subprocess.TimeoutExpired` and returns `[]`, so
`run` treats it as a successful zero-event scrape, returns `[]` instead of
the cached events, and replaces the Cache Entry (its event list becomes
empty) rather than leaving it unchanged. -/
theorem claim2_counterexample :
    (BaseScraper.run "visarts" (sourceUrlOf "visarts") [("visarts", entryVA)]
        100000 "2024-01-01"
        (ClaudePlaywrightScraper.scrape "visarts" (sourceUrlOf "visarts")
          "Visual Arts Center of Richmond" "1812 W Main St, Richmond, VA 23220"
          ["open-session", "nude"] .timeout) true).returned = [] ∧
    entryVA.events ≠ [] ∧
    cacheGetRaw (BaseScraper.run "visarts" (sourceUrlOf "visarts") [("visarts", entryVA)]
        100000 "2024-01-01"
        (ClaudePlaywrightScraper.scrape "visarts" (sourceUrlOf "visarts")
          "Visual Arts Center of Richmond" "1812 W Main St, Richmond, VA 23220"
          ["open-session", "nude"] .timeout) true).cache "visarts" ≠
      some entryVA := by
  refine ⟨by decide, by decide, by decide⟩

/-- Claim C2 as amended: when the `scrape()` call raises (and the cache
missed, which is the only way a fetch is attempted), `run` returns the raw
cached entry's events regardless of age — or an empty list when no entry
exists — leaves the cache unchanged, and never propagates the failure; but a
fetch exceeding its timeout in the Claude scraper is caught inside `scrape`
and becomes a successful scrape of zero events, so it does not reach that
fallback path. -/
theorem claim2_amended (sid surl : String) (c : ScraperCache) (now : Nat)
    (today : String) (sok : Bool) (defloc defaddr : String) (dtags : List String)
    (h : cacheGet c sid now = none) :
    BaseScraper.run sid surl c now today .raise sok =
      { cache := c
        returned := (cacheGetRaw c sid).elim [] CacheEntry.events
        fetched := true } ∧
    ClaudePlaywrightScraper.scrape sid surl defloc defaddr dtags .timeout = .ok [] := by
  constructor
  · unfold BaseScraper.run
    rw [h]
  · rfl

/-- Witness for C2's amended claim: on an empty cache, a raising scrape
yields an empty result with the cache untouched, and the Claude scraper maps
a timeout to a successful empty scrape. -/
theorem claim2_amended_witness :
    BaseScraper.run "visarts" "u" [] 50 "2024-01-01" .raise true =
      { cache := [], returned := [], fetched := true } ∧
    ClaudePlaywrightScraper.scrape "visarts" "u" "loc" "addr" [] .timeout = .ok [] :=
  claim2_amended "visarts" "u" [] 50 "2024-01-01" true "loc" "addr" [] rfl

/-- Counterexample to C3: a run in which every durable cache write during
`set` fails (saveOk is false for every source, and each scraper does reach
`save_to_cache`) still completes successfully — the write error is swallowed
by `run`'s per-source exception handler instead of propagating as fatal, and
the run reports success over data it never durably cached. -/
theorem claim3_counterexample :
    run_all_scrapers false none 1000 "2024-01-01" (fun _ => ScrapeOutcome.ok [])
        (fun _ => false) true [] =
      .ok { events := []
            cache := [("visarts", c3entry "visarts"), ("vmfa", c3entry "vmfa"),
                      ("studiotwothree", c3entry "studiotwothree"),
                      ("eventbrite", c3entry "eventbrite")]
            needed := allScrapers
            invoked := [("visarts", true), ("vmfa", true),
                        ("studiotwothree", true), ("eventbrite", true)] } := by
  decide

/-- Claim C3 as amended: a durable-write failure during the force-refresh
`invalidate` loop does propagate fatally out of `run_all_scrapers`; but a
durable-write failure during `set` inside a scraper run is caught by the
Scraper Runner's per-source handler, and without force-refresh the only
fatal error a run can produce is the sort comparison's `TypeError` — never a
storage write error and never an individual source failure. -/
theorem claim3_amended :
    (∀ (sources : Option (List String)) (now : Nat) (today : String)
        (scf : String → ScrapeOutcome) (sof : String → Bool) (c0 : ScraperCache),
      (∃ s ∈ workingSources sources, (cacheGetRaw c0 s).isSome = true) →
      run_all_scrapers true sources now today scf sof false c0 = .error .osError) ∧
    (∀ (sources : Option (List String)) (now : Nat) (today : String)
        (scf : String → ScrapeOutcome) (sof : String → Bool) (invOk : Bool)
        (c0 : ScraperCache) (e : PyErr),
      run_all_scrapers false sources now today scf sof invOk c0 = .error e →
      e = .typeError) := by
  constructor
  · intro sources now today scf sof c0 h
    have hinv := invalidateAll_false_error (workingSources sources) c0 h
    unfold run_all_scrapers
    dsimp only
    rw [hinv]
  · intro sources now today scf sof invOk c0 e h
    unfold run_all_scrapers at h
    dsimp only at h
    cases hp : aggPartition false c0 now (workingSources sources) with
    | mk ce nd =>
      rw [hp] at h
      dsimp only at h
      cases hf : aggFetch now today scf sof c0 nd with
      | mk c2 r2 =>
        cases r2 with
        | mk fe inv =>
          rw [hf] at h
          dsimp only at h
          cases hs : pySortEvents (fe ++ ce) with
          | error e' =>
            rw [hs] at h
            cases h
            exact pySortEvents_error _ _ hs
          | ok sorted =>
            rw [hs] at h
            exact absurd h (by simp)

/-- Witness for C3's amended claim: a failing invalidate-write with a cached
visarts entry aborts the forced run fatally, and a run whose merged events
make the sort comparison raise produces exactly a `TypeError`. -/
theorem claim3_amended_witness :
    run_all_scrapers true none 900 "2024-01-01" (fun _ => ScrapeOutcome.ok [])
        (fun _ => true) false [("visarts", entryVA)] = .error .osError ∧
    PyErr.typeError = PyErr.typeError := by
  constructor
  · exact claim3_amended.1 none 900 "2024-01-01" (fun _ => ScrapeOutcome.ok [])
      (fun _ => true) [("visarts", entryVA)] ⟨"visarts", by decide, by decide⟩
  · exact claim3_amended.2 none 1000 "2024-01-01" (fun _ => ScrapeOutcome.ok [])
      (fun _ => true) true [("visarts", entryClash)] PyErr.typeError (by decide)

/-- Claim C6: with `force_refresh`, every working source's Cache Entry is
invalidated before the partition (the invalidation loop succeeds and leaves
no working source in the raw store), the partition then reports every
working source as needing a fetch, and the sequential fetch stage invokes
the Source Fetcher (`scrape`) for each working source — even one that held a
valid non-expired entry. -/
theorem claim6_force_refresh_fetches (sources : Option (List String))
    (c0 : ScraperCache) (now : Nat) (today : String)
    (scf : String → ScrapeOutcome) (sof : String → Bool) (s : String)
    (hs : s ∈ workingSources sources) :
    ∃ c1, invalidateAll (workingSources sources) true c0 = .ok c1 ∧
      cacheGetRaw c1 s = none ∧
      aggPartition true c1 now (workingSources sources) = ([], workingSources sources) ∧
      (s, true) ∈ (aggFetch now today scf sof c1 (workingSources sources)).2.2 := by
  obtain ⟨c1, h1, h2⟩ := invalidateAll_true_ok (workingSources sources) c0
  refine ⟨c1, h1, h2 s (Or.inl hs), aggPartition_force c1 now (workingSources sources), ?_⟩
  exact aggFetch_all_fetched now today scf sof (workingSources sources) c1
    (workingSources_nodup sources) (fun t ht => h2 t (Or.inl ht)) s hs

/-- Witness for C6: visarts holds a valid non-expired entry (fetched at 1000,
queried at 1100, TTL 24 h), yet under force-refresh its entry is removed and
its fetcher is invoked. -/
theorem claim6_force_refresh_fetches_witness :
    ∃ c1, invalidateAll (workingSources none) true [("visarts", entryTtlW)] = .ok c1 ∧
      cacheGetRaw c1 "visarts" = none ∧
      aggPartition true c1 1100 (workingSources none) = ([], workingSources none) ∧
      ("visarts", true) ∈ (aggFetch 1100 "2024-01-01" (fun _ => ScrapeOutcome.ok [])
        (fun _ => true) c1 (workingSources none)).2.2 :=
  claim6_force_refresh_fetches none [("visarts", entryTtlW)] 1100 "2024-01-01"
    (fun _ => ScrapeOutcome.ok []) (fun _ => true) "visarts" (by decide)
